import Mathlib

/-!
Verification of the Beurer TL100 BLE light driver (`beurer.py`).

The Python driver is shallowly embedded below: bytes are `Nat` values
(every byte the device produces or consumes is `< 256`; arithmetic that
could overflow a byte is noted where it matters), byte strings are
`List Nat`, mutable instance fields become an explicit `State` record,
and each method that mutates state becomes a pure function
`State → ... → State` (paired with a `Bool` recording whether the
external update callback fires, and wrapped in `Option` where the
Python code can raise `IndexError`).  Python `int(x / y * z)` float
expressions are modelled by `Nat` floor division; a comment at each
such definition justifies that the float computation agrees with the
exact floor on the full range of inputs the field can hold.
-/

namespace Beurer

/-- The fixed effect catalog `_supported_effects` (beurer.py line 46). -/
def supportedEffects : List String :=
  ["Off", "Random", "Rainbow", "Rainbow Slow", "Fusion",
   "Pulse", "Wave", "Chill", "Action", "Forest", "Summer"]

/-- The two color modes used by the driver (`ColorMode.WHITE` / `ColorMode.RGB`
from homeassistant, only these two values are ever stored in `_mode`). -/
inductive CMode where
  | white : CMode
  | rgb : CMode
deriving DecidableEq, Repr

/-- The mutable fields of `BeurerInstance` that the claims are about.
`clientConnected` models `_client is not None`; `hasTriggerUpdate`
models `_trigger_update is not None` (a registered update callback). -/
structure State where
  isOn : Bool
  lightOn : Bool
  colorOn : Bool
  rgbColor : Nat × Nat × Nat
  brightness : Nat
  colorBrightness : Nat
  effect : String
  writeUuid : Option String
  readUuid : Option String
  clientConnected : Bool
  mode : CMode
  expectedDisconnect : Bool
  hasTriggerUpdate : Bool
deriving DecidableEq, Repr

/-- The field values set by `__init__` (beurer.py lines 36-52). -/
def initState : State :=
  { isOn := false
    lightOn := false
    colorOn := false
    rgbColor := (255, 255, 255)
    brightness := 255
    colorBrightness := 255
    effect := "Off"
    writeUuid := none
    readUuid := none
    clientConnected := false
    mode := CMode.white
    expectedDisconnect := false
    hasTriggerUpdate := false }

/-- `_make_checksum(length, data)` (beurer.py lines 135-141): XOR-fold of
`data` starting from `length`. -/
def makeChecksum (length : Nat) (data : List Nat) : Nat :=
  data.foldl (fun result byte => result ^^^ byte) length

/-- `_build_packet(message)` (beurer.py lines 143-148).  The Python code
returns `bytes(packet)`; we keep the list of byte values.  A pure, total
function: deterministic, no side effects, and (for the command payloads the
driver sends, all of length ≤ 4 with values ≤ 255) every emitted value
fits in a byte, so the `bytes()` conversion cannot fail either. -/
def buildPacket (message : List Nat) : List Nat :=
  let length := message.length
  let checksum := makeChecksum (length + 2) message
  [0xFE, 0xEF, 0x0A, length + 7, 0xAB, 0xAA, length + 2] ++ message
    ++ [checksum, 0x55, 0x0D, 0x0A]

/-- XOR-folding from an initial value equals XOR of the initial value with
the right fold of the list from 0. -/
theorem makeChecksum_eq_xor (init : Nat) (data : List Nat) :
    makeChecksum init data = init ^^^ data.foldr (fun a b => a ^^^ b) 0 := by
  induction data generalizing init with
  | nil => simp [makeChecksum]
  | cons x xs ih =>
      simp only [makeChecksum, List.foldl_cons, List.foldr_cons] at *
      rw [ih (init ^^^ x), Nat.xor_assoc]

/-- XOR of two bytes is a byte. -/
theorem xor_lt_256 {a b : Nat} (ha : a < 256) (hb : b < 256) :
    a ^^^ b < 256 := by
  have h := Nat.xor_lt_two_pow (n := 8) ha hb
  simpa using h

/-- The brightness mapping used on the notification side
(beurer.py lines 244 and 255):
`int(data[10] * 255 / 100) if data[10] > 0 else 255`.
Float fidelity: for `p ≤ 255` the float expression `p * 255 / 100` has
exact value `(p * 255) / 100` as a rational; when `100 ∣ p * 255` the
quotient is an integer ≤ 650 and the double division is exact, otherwise
the quotient is at least `1/100` away from every integer while the
division's rounding error is below `2^-40`, so Python's truncating `int`
agrees with `Nat` floor division. -/
def percentToLevel (p : Nat) : Nat :=
  if 0 < p then p * 255 / 100 else 255

/-- The conversion used on the command side
(beurer.py lines 309, 321, 356): `int(brightness / 255 * 100)`.
Float fidelity: for `b ≤ 255` the exact value `b * 100 / 255 = b * 20 / 51`
is an integer exactly when `51 ∣ b`; in those six cases (`b = 51 k`) the
double computation `(b / 255) * 100 = (k * 0.2) * 100` rounds to the exact
integer (the accumulated error is below half an ulp at that magnitude),
and in every other case the exact value is at least `1/51` from an
integer while the float error is below `2^-40`, so truncating `int`
agrees with `Nat` floor division. -/
def levelToPercent (b : Nat) : Nat :=
  b * 100 / 255

/-- `_find_effect_position`'s `list.index` core: first index of `e` in the
list, `none` when absent (Python raises `ValueError` when absent). -/
def listIndex (e : String) : List String → Option Nat
  | [] => none
  | x :: xs => if x = e then some 0 else (listIndex e xs).map (· + 1)

/-- `_find_effect_position(effect)` (beurer.py lines 126-133): `None → 0`,
a present name → its first index, `ValueError` (absent name) → 0. -/
def findEffectPosition (effect : Option String) : Nat :=
  match effect with
  | none => 0
  | some e => (listIndex e supportedEffects).getD 0

/-- The payload sent by `set_effect` (beurer.py line 334):
`[0x34, self._find_effect_position(effect)]`. -/
def setEffectPayload (effect : String) : List Nat :=
  [0x34, findEffectPosition (some effect)]

/-- The `color_brightness` property (beurer.py lines 96-99):
`self._color_brightness or 255`.  On an `int` field, Python `x or 255`
is `255` when `x == 0` and `x` otherwise. -/
def colorBrightnessAccessor (s : State) : Nat :=
  if s.colorBrightness = 0 then 255 else s.colorBrightness

/-- The `white_brightness` property (beurer.py lines 101-104):
`self._brightness or 255`. -/
def whiteBrightnessAccessor (s : State) : Nat :=
  if s.brightness = 0 then 255 else s.brightness

/-- The tail of `disconnect()` (beurer.py lines 378-390) as it acts on the
instance fields: `_client = None` and, after teardown, `_expected_disconnect
= False`.  (The transport-driven `_disconnected_callback` that bleak may
fire during `client.disconnect()` is modelled separately below.) -/
def disconnectOp (s : State) : State :=
  { s with clientConnected := false, expectedDisconnect := false }

/-- `_notification_handler(characteristic, data)` (beurer.py lines 230-279)
as a function of the instance state and the frame bytes.  Returns
`none` when the Python code would raise `IndexError` (an out-of-range
`data[i]` subscript), otherwise `some (newState, fired)` where `fired`
records whether `self._trigger_update` was invoked (it is invoked only
when a callback is registered).  Byte reads are sequenced exactly as the
source reads them, so a failing read prevents the assignments that
follow it, as in Python. -/
def notificationHandler (s : State) (data : List Nat) :
    Option (State × Bool) :=
  if data.length < 9 then
    some (s, false)
  else do
    let tag ← data.get? 8
    if tag = 1 then do
      let b9 ← data.get? 9
      let s1 := { s with lightOn := b9 == 1 }
      if s1.lightOn then do
        let b10 ← data.get? 10
        some ({ s1 with brightness := percentToLevel b10,
                        mode := CMode.white }, false)
      else
        some (s1, false)
    else if tag = 2 then do
      let b9 ← data.get? 9
      let s1 := { s with colorOn := b9 == 1 }
      let s2 ←
        if s1.colorOn then do
          let sm := { s1 with mode := CMode.rgb }
          if 16 < data.length then do
            let b16 ← data.get? 16
            let eff := supportedEffects.getD
              (min b16 (supportedEffects.length - 1)) ""
            some { sm with effect := eff }
          else
            some sm
        else
          some s1
      let b10 ← data.get? 10
      let s3 := { s2 with colorBrightness := percentToLevel b10 }
      let s4 ←
        if 16 ≤ data.length then do
          let b13 ← data.get? 13
          let b14 ← data.get? 14
          let b15 ← data.get? 15
          some { s3 with rgbColor := (b13, b14, b15) }
        else
          some s3
      let s5 := { s4 with isOn := s4.lightOn || s4.colorOn }
      some (s5, s5.hasTriggerUpdate)
    else if tag = 255 then
      let s1 := { s with isOn := false, lightOn := false, colorOn := false }
      some (s1, s1.hasTriggerUpdate)
    else if tag = 0 then
      some (disconnectOp { s with expectedDisconnect := true }, false)
    else
      some (s, false)

/-- `_disconnected_callback(client)` (beurer.py lines 54-69) as it acts on
the instance fields; the `Bool` records whether `_trigger_update` was
scheduled (via `call_soon_threadsafe`, which happens only when a callback
is registered and the disconnect was not expected). -/
def disconnectedCallback (s : State) : State × Bool :=
  if s.writeUuid.isSome then
    let s1 := { s with writeUuid := none, readUuid := none }
    if !s.expectedDisconnect then
      ({ s1 with isOn := false, lightOn := false, colorOn := false,
                 clientConnected := false }, s.hasTriggerUpdate)
    else
      ({ s1 with clientConnected := false }, false)
  else
    ({ s with clientConnected := false }, false)

/-- The optimistic state mutations performed by `turn_off()` (beurer.py
lines 361-367): none.  The body only sends the two off packets, sleeps
and re-requests status; it assigns no instance field. -/
def turnOffState (s : State) : State :=
  s

/-- The optimistic state mutations performed by `turn_on()` (beurer.py
lines 337-359): in WHITE mode nothing is assigned; in RGB mode, when
color was not already on, `_color_on` is set `True` before the restore
sends (which themselves assign nothing). -/
def turnOnState (s : State) : State :=
  match s.mode with
  | CMode.white => s
  | CMode.rgb => if !s.colorOn then { s with colorOn := true } else s

/-- A byte read `l.get? i` succeeds with the `getD` value when in bounds. -/
theorem get?_eq_some_getD {l : List Nat} {i : Nat} (h : i < l.length) :
    l.get? i = some (l.getD i 0) := by
  rw [List.getD_eq_getElem l 0 h, List.get?_eq_getElem?,
    List.getElem?_eq_getElem h]

/-- The `getElem?` form of `get?_eq_some_getD`. -/
theorem getElem?_eq_some_getD {l : List Nat} {i : Nat} (h : i < l.length) :
    l[i]? = some (l.getD i 0) := by
  rw [List.getD_eq_getElem l 0 h, List.getElem?_eq_getElem h]

/-- A XOR-fold of bytes starting from a byte stays a byte. -/
theorem makeChecksum_lt_256 {init : Nat} {data : List Nat} (h : init < 256)
    (hd : ∀ b ∈ data, b < 256) : makeChecksum init data < 256 := by
  induction data generalizing init with
  | nil => simpa [makeChecksum] using h
  | cons x xs ih =>
      simp only [makeChecksum, List.foldl_cons] at *
      exact ih (xor_lt_256 h (hd x (by simp)))
        (fun b hb => hd b (by simp [hb]))

/-- C1: for every payload `P` of length `L`, `_build_packet` returns exactly
`[0xFE, 0xEF, 0x0A, L+7, 0xAB, 0xAA, L+2] ++ P ++ [c, 0x55, 0x0D, 0x0A]`
with `c = (L+2) XOR P[0] XOR ... XOR P[L-1]`; the frame length is `L + 11`;
when the payload fits in bytes (values < 256, `L ≤ 248`) every frame value
fits in a byte, so the final `bytes()` conversion cannot fail; and
`build([])` is the minimum-length 11-byte frame for payload length 0 with
checksum 2.  (`buildPacket` is a pure total function, hence deterministic
with no side effects.) -/
theorem C1_build_packet :
    (∀ P : List Nat,
        buildPacket P
          = [0xFE, 0xEF, 0x0A, P.length + 7, 0xAB, 0xAA, P.length + 2] ++ P
              ++ [(P.length + 2) ^^^ P.foldr (fun a b => a ^^^ b) 0,
                  0x55, 0x0D, 0x0A]
        ∧ (buildPacket P).length = P.length + 11
        ∧ (P.length ≤ 248 → (∀ b ∈ P, b < 256) →
            ∀ b ∈ buildPacket P, b < 256))
    ∧ buildPacket []
        = [0xFE, 0xEF, 0x0A, 7, 0xAB, 0xAA, 2, 2, 0x55, 0x0D, 0x0A]
    ∧ makeChecksum (0 + 2) [] = 2 := by
  refine ⟨fun P => ⟨?_, ?_, ?_⟩, by decide, by decide⟩
  · simp [buildPacket, makeChecksum_eq_xor]
  · simp [buildPacket]
  · intro hl hb b hbmem
    have hcs : makeChecksum (P.length + 2) P < 256 :=
      makeChecksum_lt_256 (by omega) hb
    simp only [buildPacket, List.mem_append, List.mem_cons,
      List.not_mem_nil, or_false] at hbmem
    rcases hbmem with ((h | h | h | h | h | h | h) | h) | h | h | h | h
    all_goals first
      | omega
      | (exact hb b h)

/-- C1 witness: `C1_build_packet` at the concrete power-on payload
`[0x37, 0x01]` (checksum `4 XOR 0x37 XOR 0x01 = 50`), with the
byte-validity clause discharged and instantiated at the checksum byte. -/
theorem C1_build_packet_witness :
    buildPacket [0x37, 0x01]
      = [0xFE, 0xEF, 0x0A, 9, 0xAB, 0xAA, 4, 0x37, 0x01, 50,
         0x55, 0x0D, 0x0A]
    ∧ (50 : Nat) < 256 := by
  have h := C1_build_packet.1 [0x37, 0x01]
  constructor
  · rw [h.1]
    decide
  · exact h.2.2 (by decide) (by decide) 50 (by decide)

/-- Python's `round` (round half to even) of the exact rational `n / d`,
for `d > 0`.  Used only to state the specification's mapping
`round(percent * 255 / 100)`, for comparison against the source's
truncating `int(percent * 255 / 100)`. -/
def specRound (n d : Nat) : Nat :=
  let q := n / d
  let r := n % d
  if 2 * r < d then q
  else if d < 2 * r then q + 1
  else if q % 2 = 0 then q else q + 1

/-- C2 counterexample: on the white-status frame with tag 1, on-byte 1 and
percent byte 50, the handler stores brightness 127 (Python truncates
`50 * 255 / 100 = 127.5` to 127), while the claimed mapping
`round(50 * 255 / 100)` gives 128 — so the handler does not set the
brightness to the rounded value. -/
theorem C2_counterexample :
    ((notificationHandler initState
        [0, 0, 0, 0, 0, 0, 0, 0, 1, 1, 50]).getD
      (initState, false)).1.brightness = 127
    ∧ specRound (50 * 255) 100 = 128
    ∧ (127 : Nat) ≠ 128 := by
  refine ⟨by decide, by decide, by decide⟩

set_option maxRecDepth 8000 in
/-- C2 (amended): for every notification frame long enough for the bytes
this branch reads (length ≥ 11) whose reply tag (byte 8) is 1, the handler
raises no error, sets `_light_on` to (byte 9 == 1), and when byte 9 == 1
sets the mode to WHITE and the white brightness to the *truncated*
`⌊byte10 * 255 / 100⌋` when byte 10 > 0 and to the default 255 when
byte 10 = 0; no update callback fires in this branch.  In particular
tag=1, byte9=1, byte10=50 yields white on, mode WHITE and brightness
within 1 of 128, and byte10=0 yields brightness 255. -/
theorem C2_white_status (s : State) (data : List Nat)
    (hlen : 11 ≤ data.length) (htag : data.getD 8 0 = 1) :
    (∃ r, notificationHandler s data = some r
      ∧ r.1.lightOn = (data.getD 9 0 == 1)
      ∧ (data.getD 9 0 = 1 →
          r.1.mode = CMode.white
          ∧ r.1.brightness =
              (if 0 < data.getD 10 0 then data.getD 10 0 * 255 / 100
               else 255))
      ∧ r.2 = false)
    ∧ (notificationHandler initState [0, 0, 0, 0, 0, 0, 0, 0, 1, 1, 50]).map
        (fun r => (r.1.lightOn, r.1.mode, r.1.brightness))
        = some (true, CMode.white, 127)
    ∧ Nat.dist 127 128 ≤ 1
    ∧ (notificationHandler initState [0, 0, 0, 0, 0, 0, 0, 0, 1, 1, 0]).map
        (fun r => r.1.brightness) = some 255 := by
  refine ⟨?_, by decide, by decide, by decide⟩
  have hnl : ¬ data.length < 9 := by omega
  have h8 : data[8]? = some 1 := by
    rw [getElem?_eq_some_getD (by omega), htag]
  have h9 : data[9]? = some (data.getD 9 0) :=
    getElem?_eq_some_getD (by omega)
  have h10 : data[10]? = some (data.getD 10 0) :=
    getElem?_eq_some_getD (by omega)
  set b9 := data.getD 9 0
  set b10 := data.getD 10 0
  by_cases hb9 : b9 = 1
  · have hb9' : (b9 == 1) = true := by simpa using hb9
    refine ⟨({ s with lightOn := true,
                      brightness := percentToLevel b10,
                      mode := CMode.white }, false), ?_, hb9'.symm, ?_,
            rfl⟩
    · simp [notificationHandler, hnl, h8, h9, h10, hb9', hb9]
    · intro _
      exact ⟨rfl, rfl⟩
  · have hb9' : (b9 == 1) = false := by simpa using hb9
    refine ⟨({ s with lightOn := false }, false), ?_, hb9'.symm, ?_, rfl⟩
    · simp [notificationHandler, hnl, h8, h9, hb9', hb9]
    · intro h
      exact absurd h hb9

/-- C2 witness: `C2_white_status` applied to the concrete zero-percent
white-status frame. -/
theorem C2_white_status_witness :
    ((notificationHandler initState
        [0, 0, 0, 0, 0, 0, 0, 0, 1, 1, 0]).getD
      (initState, false)).1.brightness = 255 := by
  obtain ⟨⟨r, hr, _h1, hon, _h2⟩, _h3, _h4, _h5⟩ :=
    C2_white_status initState [0, 0, 0, 0, 0, 0, 0, 0, 1, 1, 0]
      (by decide) (by decide)
  rw [hr]
  simp only [Option.getD_some]
  rw [(hon (by decide)).2]
  decide

/-- C3 counterexample: on the color-status frame with tag 2, on-byte 1 and
percent byte 50, the handler stores color brightness 127 (truncation),
while the spec's round mapping gives 128. -/
theorem C3_counterexample :
    ((notificationHandler initState
        [0, 0, 0, 0, 0, 0, 0, 0, 2, 1, 50]).getD
      (initState, false)).1.colorBrightness = 127
    ∧ specRound (50 * 255) 100 = 128
    ∧ (127 : Nat) ≠ 128 :=
  ⟨by decide, by decide, by decide⟩

set_option maxRecDepth 8000 in
/-- C3 (amended): for every notification frame long enough for the bytes
this branch reads (length ≥ 11) whose reply tag (byte 8) is 2, the handler
raises no error and sets `_color_on` to (byte 9 == 1); if on it sets the
mode to RGB and, when the frame length exceeds 16, sets the effect by
byte 16 as an index clamped to the last valid catalog entry (a valid
index, never erroring); it sets the color brightness from byte 10 by the
*truncated* `⌊byte10 * 255 / 100⌋` mapping with the 0-defaults-to-255
rule; when the frame length is at least 16 it sets the rgb triple to
(byte13, byte14, byte15); it sets the derived `_is_on` to
white-on OR color-on; and the update callback fires in this branch
exactly when a callback is registered. -/
theorem C3_color_status (s : State) (data : List Nat)
    (hlen : 11 ≤ data.length) (htag : data.getD 8 0 = 2) :
    ∃ r, notificationHandler s data = some r
      ∧ r.1.colorOn = (data.getD 9 0 == 1)
      ∧ (data.getD 9 0 = 1 → r.1.mode = CMode.rgb)
      ∧ (data.getD 9 0 = 1 → 16 < data.length →
          r.1.effect = supportedEffects.getD
              (min (data.getD 16 0) (supportedEffects.length - 1)) ""
          ∧ min (data.getD 16 0) (supportedEffects.length - 1)
              < supportedEffects.length)
      ∧ r.1.colorBrightness =
          (if 0 < data.getD 10 0 then data.getD 10 0 * 255 / 100 else 255)
      ∧ (16 ≤ data.length →
          r.1.rgbColor = (data.getD 13 0, data.getD 14 0, data.getD 15 0))
      ∧ r.1.lightOn = s.lightOn
      ∧ r.1.isOn = (s.lightOn || (data.getD 9 0 == 1))
      ∧ r.2 = s.hasTriggerUpdate := by
  have hnl : ¬ data.length < 9 := by omega
  have h8 : data[8]? = some 2 := by
    rw [getElem?_eq_some_getD (by omega), htag]
  have h9 : data[9]? = some (data.getD 9 0) :=
    getElem?_eq_some_getD (by omega)
  have h10 : data[10]? = some (data.getD 10 0) :=
    getElem?_eq_some_getD (by omega)
  set b9 := data.getD 9 0
  set b10 := data.getD 10 0
  rcases Nat.lt_or_ge data.length 16 with h16 | h16
  · -- 11 ≤ length < 16: neither rgb nor effect is read
    have hn17 : ¬ 16 < data.length := by omega
    have hn16 : ¬ 16 ≤ data.length := by omega
    by_cases hb9 : b9 = 1
    · have hb9' : (b9 == 1) = true := by simpa using hb9
      refine ⟨({ s with colorOn := true, mode := CMode.rgb,
                        colorBrightness := percentToLevel b10,
                        isOn := true }, s.hasTriggerUpdate),
              ?_, hb9'.symm, fun _ => rfl, fun _ h => absurd h hn17,
              rfl, fun h => absurd h hn16, rfl, by simp [hb9'], rfl⟩
      simp [notificationHandler, hnl, h8, h9, h10, hb9', hb9, hn17, hn16]
    · have hb9' : (b9 == 1) = false := by simpa using hb9
      refine ⟨({ s with colorOn := false,
                        colorBrightness := percentToLevel b10,
                        isOn := s.lightOn }, s.hasTriggerUpdate),
              ?_, hb9'.symm, fun h => absurd h hb9, fun h => absurd h hb9,
              rfl, fun h => absurd h hn16, rfl, by simp [hb9'], rfl⟩
      simp [notificationHandler, hnl, h8, h9, h10, hb9', hb9, hn17, hn16]
  · -- length ≥ 16: rgb bytes are read
    have h13 : data[13]? = some (data.getD 13 0) :=
      getElem?_eq_some_getD (by omega)
    have h14 : data[14]? = some (data.getD 14 0) :=
      getElem?_eq_some_getD (by omega)
    have h15 : data[15]? = some (data.getD 15 0) :=
      getElem?_eq_some_getD (by omega)
    set b13 := data.getD 13 0
    set b14 := data.getD 14 0
    set b15 := data.getD 15 0
    by_cases h17 : 16 < data.length
    · -- length ≥ 17: byte 16 is readable
      have h16v : data[16]? = some (data.getD 16 0) :=
        getElem?_eq_some_getD (by omega)
      set b16 := data.getD 16 0
      by_cases hb9 : b9 = 1
      · have hb9' : (b9 == 1) = true := by simpa using hb9
        refine ⟨({ s with colorOn := true, mode := CMode.rgb,
                          effect := supportedEffects.getD
                            (min b16 (supportedEffects.length - 1)) "",
                          colorBrightness := percentToLevel b10,
                          rgbColor := (b13, b14, b15),
                          isOn := true }, s.hasTriggerUpdate),
                ?_, hb9'.symm, fun _ => rfl,
                fun _ _ => ⟨rfl, by
                  have hm := Nat.min_le_right b16 (supportedEffects.length - 1)
                  have hc : supportedEffects.length = 11 := rfl
                  omega⟩,
                rfl, fun _ => rfl, rfl, by simp [hb9'], rfl⟩
        simp [notificationHandler, hnl, h8, h9, h10, h13, h14, h15, h16v,
          hb9', hb9, h17, h16]
      · have hb9' : (b9 == 1) = false := by simpa using hb9
        refine ⟨({ s with colorOn := false,
                          colorBrightness := percentToLevel b10,
                          rgbColor := (b13, b14, b15),
                          isOn := s.lightOn }, s.hasTriggerUpdate),
                ?_, hb9'.symm, fun h => absurd h hb9, fun h => absurd h hb9,
                rfl, fun _ => rfl, rfl, by simp [hb9'], rfl⟩
        simp [notificationHandler, hnl, h8, h9, h10, h13, h14, h15,
          hb9', hb9, h17, h16]
    · -- length = 16: rgb but no effect byte
      by_cases hb9 : b9 = 1
      · have hb9' : (b9 == 1) = true := by simpa using hb9
        refine ⟨({ s with colorOn := true, mode := CMode.rgb,
                          colorBrightness := percentToLevel b10,
                          rgbColor := (b13, b14, b15),
                          isOn := true }, s.hasTriggerUpdate),
                ?_, hb9'.symm, fun _ => rfl, fun _ h => absurd h h17,
                rfl, fun _ => rfl, rfl, by simp [hb9'], rfl⟩
        simp [notificationHandler, hnl, h8, h9, h10, h13, h14, h15,
          hb9', hb9, h17, h16]
      · have hb9' : (b9 == 1) = false := by simpa using hb9
        refine ⟨({ s with colorOn := false,
                          colorBrightness := percentToLevel b10,
                          rgbColor := (b13, b14, b15),
                          isOn := s.lightOn }, s.hasTriggerUpdate),
                ?_, hb9'.symm, fun h => absurd h hb9, fun h => absurd h hb9,
                rfl, fun _ => rfl, rfl, by simp [hb9'], rfl⟩
        simp [notificationHandler, hnl, h8, h9, h10, h13, h14, h15,
          hb9', hb9, h17, h16]

/-- C3 witness: `C3_color_status` applied to a concrete 17-byte
color-status frame; the out-of-range effect index 200 clamps to the last
catalog entry. -/
theorem C3_color_status_witness :
    ((notificationHandler { initState with hasTriggerUpdate := true }
        [0, 0, 0, 0, 0, 0, 0, 0, 2, 1, 50, 0, 0, 10, 20, 30, 200]).getD
      (initState, false)).1.rgbColor = (10, 20, 30)
    ∧ ((notificationHandler { initState with hasTriggerUpdate := true }
        [0, 0, 0, 0, 0, 0, 0, 0, 2, 1, 50, 0, 0, 10, 20, 30, 200]).getD
      (initState, false)).1.effect = "Summer" := by
  obtain ⟨r, hr, _hc, _hm, heff, _hbr, hrgb, _hl, _ho, _hf⟩ :=
    C3_color_status { initState with hasTriggerUpdate := true }
      [0, 0, 0, 0, 0, 0, 0, 0, 2, 1, 50, 0, 0, 10, 20, 30, 200]
      (by decide) (by decide)
  rw [hr]
  simp only [Option.getD_some]
  constructor
  · rw [hrgb (by decide)]
    decide
  · rw [(heff (by decide) (by decide)).1]
    decide

/-- C4: when the transport disconnect callback runs with the write channel
resolved, the channel identifiers and the link handle are cleared; if the
disconnect was not flagged expected, the on-flags are reset to false and
the update callback is scheduled (exactly when one is registered) while
rgb, both brightnesses, effect and mode stay unchanged (manifest in the
result record, which updates no other field of `s`); if the disconnect
was flagged expected, no state-store field changes and no update fires;
if the write channel was never resolved, only the link handle is
cleared. -/
theorem C4_disconnected_callback (s : State) :
    (s.writeUuid.isSome = true → s.expectedDisconnect = false →
        disconnectedCallback s
          = ({ s with writeUuid := none, readUuid := none,
                      clientConnected := false, isOn := false,
                      lightOn := false, colorOn := false },
             s.hasTriggerUpdate))
    ∧ (s.writeUuid.isSome = true → s.expectedDisconnect = true →
        disconnectedCallback s
          = ({ s with writeUuid := none, readUuid := none,
                      clientConnected := false }, false))
    ∧ (s.writeUuid = none →
        disconnectedCallback s = ({ s with clientConnected := false },
          false)) := by
  refine ⟨fun hw he => ?_, fun hw he => ?_, fun hw => ?_⟩
  · simp [disconnectedCallback, hw, he]
  · simp [disconnectedCallback, hw, he]
  · simp [disconnectedCallback, hw]

/-- C4 witness: `C4_disconnected_callback` on a connected state with a
registered callback and an unexpected disconnect: channels cleared, state
reset, update scheduled. -/
theorem C4_disconnected_callback_witness :
    disconnectedCallback
        { initState with writeUuid := some "w", readUuid := some "r",
                         clientConnected := true, hasTriggerUpdate := true }
      = ({ initState with hasTriggerUpdate := true }, true) := by
  have h := (C4_disconnected_callback
    { initState with writeUuid := some "w", readUuid := some "r",
                     clientConnected := true,
                     hasTriggerUpdate := true }).1 rfl rfl
  rw [h]
  decide

/-- C5 counterexample: brightness level 254 converts to percent 99 on the
command side and maps back to level 252 on the notification side, which
is 2 away from 254 — not within 1 as claimed. -/
theorem C5_counterexample :
    levelToPercent 254 = 99
    ∧ percentToLevel (levelToPercent 254) = 252
    ∧ ¬ Nat.dist (percentToLevel (levelToPercent 254)) 254 ≤ 1 := by
  refine ⟨by decide, by decide, by decide⟩

/-- C5 (amended): the round trip
`percentToLevel (levelToPercent level)` is within 1 of the level for
levels 128 and 255; level 254 round-trips to 252, within 2; levels 0
and 1 convert to percent 0, which the notification side's zero-percent
sentinel maps to the default 255. -/
theorem C5_roundtrip_amended :
    percentToLevel (levelToPercent 128) = 127
    ∧ Nat.dist (percentToLevel (levelToPercent 128)) 128 ≤ 1
    ∧ percentToLevel (levelToPercent 255) = 255
    ∧ Nat.dist (percentToLevel (levelToPercent 255)) 255 ≤ 1
    ∧ percentToLevel (levelToPercent 254) = 252
    ∧ Nat.dist (percentToLevel (levelToPercent 254)) 254 ≤ 2
    ∧ levelToPercent 0 = 0 ∧ percentToLevel (levelToPercent 0) = 255
    ∧ levelToPercent 1 = 0 ∧ percentToLevel (levelToPercent 1) = 255 := by
  decide

/-- C6 counterexample: on a fresh instance (everything off), `turn_off()`
followed by `turn_on()` with no notification in between leaves the state
store unchanged — the device still reads as off, not on as claimed. -/
theorem C6_counterexample :
    turnOnState (turnOffState initState) = initState
    ∧ (turnOnState (turnOffState initState)).isOn = false :=
  ⟨rfl, rfl⟩

/-- C6 (amended): `turn_off()` performs no optimistic mutation of the
state store at all, and `turn_on()` after it leaves `_is_on` unchanged —
it only sets `_color_on` when the mode is RGB and color was off, and
changes nothing in WHITE mode.  Hence `turn_off(); turn_on()` with no
notification processed leaves the store reflecting the prior state: no
stale off is introduced (because `turn_off` writes nothing), but the
device reads as on only if it already did. -/
theorem C6_optimistic_onoff (s : State) :
    turnOffState s = s
    ∧ (turnOnState (turnOffState s)).isOn = s.isOn
    ∧ (s.mode = CMode.rgb → s.colorOn = false →
        turnOnState (turnOffState s) = { s with colorOn := true })
    ∧ (s.mode = CMode.white → turnOnState (turnOffState s) = s) := by
  refine ⟨rfl, ?_, fun hm hc => ?_, fun hm => ?_⟩
  · cases hm : s.mode <;> cases hc : s.colorOn <;>
      simp [turnOnState, turnOffState, hm, hc]
  · simp [turnOnState, turnOffState, hm, hc]
  · simp [turnOnState, turnOffState, hm]

/-- C6 witness: `C6_optimistic_onoff` on an RGB-mode state with color
off: the only optimistic effect of the off/on sequence is
`_color_on := true`. -/
theorem C6_optimistic_onoff_witness :
    turnOnState (turnOffState { initState with mode := CMode.rgb })
      = { initState with mode := CMode.rgb, colorOn := true } := by
  have h := (C6_optimistic_onoff
    { initState with mode := CMode.rgb }).2.2.1 rfl rfl
  exact h

/-- C8: frames shorter than 9 bytes, and frames of length ≥ 9 whose reply
tag (byte 8) is none of 0, 1, 2, 255, leave every state field unchanged
and fire no update callback. -/
theorem C8_ignored_frames (s : State) (data : List Nat)
    (h : data.length < 9
      ∨ (9 ≤ data.length ∧ data.getD 8 0 ≠ 0 ∧ data.getD 8 0 ≠ 1
          ∧ data.getD 8 0 ≠ 2 ∧ data.getD 8 0 ≠ 255)) :
    notificationHandler s data = some (s, false) := by
  rcases h with h | ⟨hlen, h0, h1, h2, h255⟩
  · simp [notificationHandler, h]
  · have hnl : ¬ data.length < 9 := by omega
    have h8 : data[8]? = some (data.getD 8 0) :=
      getElem?_eq_some_getD (by omega)
    set tag := data.getD 8 0
    simp [notificationHandler, hnl, h8, h0, h1, h2, h255]

/-- C8 witness: `C8_ignored_frames` on a concrete 9-byte frame with the
unknown tag 7. -/
theorem C8_ignored_frames_witness :
    notificationHandler initState [0, 0, 0, 0, 0, 0, 0, 0, 7]
      = some (initState, false) :=
  C8_ignored_frames initState [0, 0, 0, 0, 0, 0, 0, 0, 7]
    (Or.inr ⟨by decide, by decide, by decide, by decide, by decide⟩)

/-- A successful `listIndex` result is a valid index. -/
theorem listIndex_lt_length {e : String} :
    ∀ {l : List String} {i : Nat}, listIndex e l = some i → i < l.length := by
  intro l
  induction l with
  | nil => intro i h; simp [listIndex] at h
  | cons x xs ih =>
      intro i h
      simp only [listIndex] at h
      split at h
      · cases h
        simp
      · rcases Option.map_eq_some'.mp h with ⟨j, hj, hji⟩
        have := ih hj
        simp only [List.length_cons]
        omega

/-- `listIndex` fails exactly like Python `list.index` on an absent
name. -/
theorem listIndex_eq_none {e : String} :
    ∀ {l : List String}, e ∉ l → listIndex e l = none := by
  intro l
  induction l with
  | nil => intro _; rfl
  | cons x xs ih =>
      intro hmem
      simp only [List.mem_cons, not_or] at hmem
      simp [listIndex, Ne.symm hmem.1, ih hmem.2]

/-- C9: resolving an effect name to a catalog index never errors: `None`
and every absent name give index 0, every name present in the catalog
gives its 0-based index, the result is always a valid catalog index, and
consequently `set_effect` always sends a payload `[0x34, i]` with `i` a
valid catalog index. -/
theorem C9_effect_resolution :
    (∀ e : Option String, findEffectPosition e < supportedEffects.length)
    ∧ (∀ i : Nat, i < supportedEffects.length →
        findEffectPosition (some (supportedEffects.getD i "")) = i)
    ∧ (∀ name : String, name ∉ supportedEffects →
        findEffectPosition (some name) = 0)
    ∧ findEffectPosition none = 0
    ∧ (∀ e : String, setEffectPayload e
          = [0x34, findEffectPosition (some e)]
        ∧ (setEffectPayload e).getD 1 0 < supportedEffects.length) := by
  have hvalid : ∀ e : Option String,
      findEffectPosition e < supportedEffects.length := by
    intro e
    cases e with
    | none => decide
    | some name =>
        cases hidx : listIndex name supportedEffects with
        | none => simp [findEffectPosition, hidx]; decide
        | some i =>
            have := listIndex_lt_length hidx
            simpa [findEffectPosition, hidx] using this
  refine ⟨hvalid, by decide, fun name hmem => ?_, rfl, fun e => ⟨rfl, ?_⟩⟩
  · simp [findEffectPosition, listIndex_eq_none hmem]
  · simpa [setEffectPayload] using hvalid (some e)

/-- C9 witness: `C9_effect_resolution` evaluated on a present name
("Wave", index 6), an absent name, and the resulting payload. -/
theorem C9_effect_resolution_witness :
    findEffectPosition (some "Wave") = 6
    ∧ findEffectPosition (some "Disco") = 0
    ∧ setEffectPayload "Disco" = [0x34, 0]
    ∧ (setEffectPayload "Wave").getD 1 0 < supportedEffects.length := by
  refine ⟨?_, C9_effect_resolution.2.2.1 "Disco" (by decide), ?_,
    (C9_effect_resolution.2.2.2.2 "Wave").2⟩
  · exact C9_effect_resolution.2.1 6 (by decide)
  · rw [(C9_effect_resolution.2.2.2.2 "Disco").1,
      C9_effect_resolution.2.2.1 "Disco" (by decide)]

/-- C10: the public brightness accessors never return 0: a cached 0 is
replaced by 255 and every nonzero cached value is returned unchanged. -/
theorem C10_brightness_accessors (s : State) :
    colorBrightnessAccessor s ≠ 0
    ∧ whiteBrightnessAccessor s ≠ 0
    ∧ (s.colorBrightness = 0 → colorBrightnessAccessor s = 255)
    ∧ (s.colorBrightness ≠ 0 →
        colorBrightnessAccessor s = s.colorBrightness)
    ∧ (s.brightness = 0 → whiteBrightnessAccessor s = 255)
    ∧ (s.brightness ≠ 0 → whiteBrightnessAccessor s = s.brightness) := by
  refine ⟨?_, ?_, fun h => ?_, fun h => ?_, fun h => ?_, fun h => ?_⟩
  all_goals
    simp only [colorBrightnessAccessor, whiteBrightnessAccessor]
  · split <;> simp_all
  · split <;> simp_all
  · simp [h]
  · simp [h]
  · simp [h]
  · simp [h]

/-- C10 witness: `C10_brightness_accessors` on a state whose cached color
brightness is 0 and whose cached white brightness is 7. -/
theorem C10_brightness_accessors_witness :
    colorBrightnessAccessor
        { initState with colorBrightness := 0, brightness := 7 } = 255
    ∧ whiteBrightnessAccessor
        { initState with colorBrightness := 0, brightness := 7 } = 7 := by
  have h := C10_brightness_accessors
    { initState with colorBrightness := 0, brightness := 7 }
  exact ⟨h.2.2.1 rfl, h.2.2.2.2.2 (by decide)⟩

end Beurer
